import Mathlib

/-!
Shallow embedding, in Lean 4, of the core algorithms of the
`auto_content` repository (YouTube content-automation workflow):

* the title / tag diversity tracker of `src/ai_service.py`
  (`AIContentGenerator._track_title_diversity`, `_is_title_diverse`,
  `_track_tag_diversity`, `_is_tags_diverse`, `_clean_and_validate_tags`,
  and the retry loop of `_generate_title_and_thumbnail`);
* the package workflow engine of `src/workflow_engine.py`
  (`_initialize_package`, `run_full_workflow` with its stage functions,
  `get_channel_statistics`, `cleanup_completed_packages`);
* the sink fan-out of `src/database_service.py`
  (`DatabaseManager.save_content_package`).

Modelling conventions:
* Python strings are Lean `String`s.  The handful of Python string
  primitives the code uses (`str.split()`, `str.lower()`, `str.strip()`,
  slugification) are re-implemented below by structural recursion over
  the character list, so that every definition evaluates by kernel
  reduction.
* Wall-clock timestamps are rationals (seconds).  The timestamp prefix
  that `ContentPackage.add_log` puts in front of each log line is
  dropped: log entries are stored as the bare message strings.  No claim
  below depends on the timestamp text, and `updated_at` is only read by
  the cleanup sweep, where it is part of the given state.
* Network collaborators (text generation, image generation, the two
  persistence sinks) are passed in as explicit outcome values
  (`Except`/`Bool`), mirroring "the call either returns this value or
  raises this exception".
-/

namespace AutoContent

/-! ### Python string primitives -/

/-- Characters of a string. -/
def chars (s : String) : List Char := s.data

/-- String from characters. -/
def ofChars (cs : List Char) : String := ⟨cs⟩

/-- Python `str.lower()` (ASCII, which is all the tracked words use). -/
def lowerStr (s : String) : String := ofChars (s.data.map Char.toLower)

/-- Python `str.strip()`: drop leading and trailing whitespace. -/
def trimStr (s : String) : String :=
  ofChars (((s.data.dropWhile Char.isWhitespace).reverse.dropWhile Char.isWhitespace).reverse)

/-- Helper for `pyWords`: split a character list at whitespace,
dropping empty fragments, exactly like Python `str.split()`. -/
def wordsAux : List Char → List Char → List (List Char)
  | [], cur => if cur.isEmpty then [] else [cur.reverse]
  | c :: cs, cur =>
      if c.isWhitespace then
        if cur.isEmpty then wordsAux cs [] else cur.reverse :: wordsAux cs []
      else wordsAux cs (c :: cur)

/-- Python `str.split()` (no argument): whitespace-separated words. -/
def pyWords (s : String) : List String := (wordsAux s.data []).map ofChars

/-- Python truthiness of an optional string (`None` and `""` are falsy). -/
def pyTruthy : Option String → Bool
  | none => false
  | some s => s ≠ ""

/-! ### Title diversity tracker (`src/ai_service.py`) -/

/-- Source: `self.max_diversity_history = 20  # Remember last 20 titles`. -/
def maxDiversityHistory : Nat := 20

/-- Source: `title.split()[0].lower() if title.split() else ""`. -/
def firstWordLower (title : String) : String :=
  match pyWords title with
  | [] => ""
  | w :: _ => lowerStr w

/-- Embeds `AIContentGenerator._track_title_diversity` (ai_service.py:130):
append the lowercase first word to `recent_title_starts`, then
`pop(0)` once if the length exceeds the 20-item cap. -/
def trackTitleDiversity (hist : List String) (title : String) : List String :=
  if title = "" then hist
  else
    let firstWord := firstWordLower title
    if firstWord = "" then hist
    else
      let h := hist ++ [firstWord]
      if h.length > maxDiversityHistory then h.drop 1 else h

/-- Embeds `AIContentGenerator._is_title_diverse` (ai_service.py:140):
diverse iff the title's lowercase first word occurs strictly fewer than
`max(1, 20 // 10) = 2` times in the current history. -/
def isTitleDiverse (hist : List String) (title : String) : Bool :=
  if title = "" ∨ hist = [] then true
  else
    let firstWord := firstWordLower title
    if firstWord = "" then true
    else
      let recentCount := hist.count firstWord
      let maxAllowed := max 1 (maxDiversityHistory / 10)
      recentCount < maxAllowed

/-! ### Tag diversity tracker (`src/ai_service.py`) -/

/-- Source: `self.max_tag_diversity_history = 15  # Remember last 15 tag sets`. -/
def maxTagDiversityHistory : Nat := 15

/-- The two bounded histories kept by the tag tracker:
`recent_tag_patterns` (per-set first words) and `recent_full_tags`
(per-set normalized full tags; created lazily in Python, here simply
starting empty). -/
structure TagHistory where
  patterns : List (List String)
  fullTags : List (List String)
deriving DecidableEq, Repr

/-- The first-word extraction loop shared by `_track_tag_diversity` and
`_is_tags_diverse`: for each non-empty tag, its lowercase first word,
when non-empty. -/
def tagPatternsOf (tags : List String) : List String :=
  tags.filterMap fun tag =>
    if tag = "" then none
    else
      let firstWord := firstWordLower tag
      if firstWord = "" then none else some firstWord

/-- The normalized-full-tag extraction loop shared by
`_track_tag_diversity` and `_is_tags_diverse`: for each non-empty tag,
`tag.lower().strip()`, when non-empty. -/
def fullTagsOf (tags : List String) : List String :=
  tags.filterMap fun tag =>
    if tag = "" then none
    else
      let fullTag := trimStr (lowerStr tag)
      if fullTag = "" then none else some fullTag

/-- Append one entry to a bounded history list, evicting the oldest
(`pop(0)`) once the cap is exceeded. -/
def appendBounded (cap : Nat) (hist : List (List String)) (entry : List String) :
    List (List String) :=
  let h := hist ++ [entry]
  if h.length > cap then h.drop 1 else h

/-- Embeds `AIContentGenerator._track_tag_diversity` (ai_service.py:173):
record a tag set's first-word patterns and normalized full tags, each
into its own 15-entry bounded history. -/
def trackTagDiversity (h : TagHistory) (tags : List String) : TagHistory :=
  if tags = [] then h
  else
    let tagPatterns := tagPatternsOf tags
    let fullTags := fullTagsOf tags
    { patterns :=
        if tagPatterns = [] then h.patterns
        else appendBounded maxTagDiversityHistory h.patterns tagPatterns
      fullTags :=
        if fullTags = [] then h.fullTags
        else appendBounded maxTagDiversityHistory h.fullTags fullTags }

/-- Embeds `AIContentGenerator._is_tags_diverse` (ai_service.py:208): count the
candidate first words occurring ≥ 2 times in the aggregated pattern
history (`overused_count`) and the candidate normalized tags occurring
≥ 1 time in the aggregated full-tag history (`duplicate_full_tags`);
diverse iff `overused_count ≤ max(1, len(current_patterns) // 5)` and
`duplicate_full_tags ≤ 0`. -/
def isTagsDiverse (h : TagHistory) (tags : List String) : Bool :=
  if tags = [] ∨ h.patterns = [] then true
  else
    let currentPatterns := tagPatternsOf tags
    let currentFullTags := fullTagsOf tags
    if currentPatterns = [] ∧ currentFullTags = [] then true
    else
      let allRecentPatterns := h.patterns.flatten
      let allRecentFullTags := h.fullTags.flatten
      let overusedCount :=
        (currentPatterns.filter fun p => allRecentPatterns.count p ≥ 2).length
      let duplicateFullTags :=
        (currentFullTags.filter fun f => allRecentFullTags.count f ≥ 1).length
      let maxAllowedOverlap := max 1 (currentPatterns.length / 5)
      decide (overusedCount ≤ maxAllowedOverlap) && decide (duplicateFullTags ≤ 0)

/-! ### Tag cleaning and validation (`AIContentGenerator._clean_and_validate_tags`) -/

/-- The apostrophe character (Python `'`), written by code point. -/
def quoteChar : Char := Char.ofNat 39

/-- The backtick character, written by code point. -/
def backquoteChar : Char := Char.ofNat 96

/-- Python `string.punctuation`. -/
def pythonPunctuation : List Char :=
  ['!', '"', '#', '$', '%', '&', quoteChar, '(', ')', '*', '+', ',', '-', '.', '/',
   ':', ';', '<', '=', '>', '?', '@', '[', '\\', ']', '^', '_', backquoteChar,
   Char.ofNat 123, '|', Char.ofNat 125, '~']

/-- Character class of `re.sub(r'^[#\-\*\d\.\s"\x27\(\)\[\]]+', '', ·)`. -/
def isLeadingJunk (c : Char) : Bool :=
  c = '#' || c = '-' || c = '*' || c.isDigit || c = '.' || c.isWhitespace ||
  c = '"' || c = quoteChar || c = '(' || c = ')' || c = '[' || c = ']'

/-- Character class of `re.sub(r'["\x27\,\.\!\?\;\:\(\)\[\]\s]*$', '', ·)`. -/
def isTrailingJunk (c : Char) : Bool :=
  c = '"' || c = quoteChar || c = ',' || c = '.' || c = '!' || c = '?' ||
  c = ';' || c = ':' || c = '(' || c = ')' || c = '[' || c = ']' || c.isWhitespace

/-- Character class of the "remove special chars" substitution
`[!@#$%^&*()_+=\[\]{}|;:\x27",.<>?/\\\x60~]`. -/
def isSpecialJunk (c : Char) : Bool :=
  c = '!' || c = '@' || c = '#' || c = '$' || c = '%' || c = '^' || c = '&' ||
  c = '*' || c = '(' || c = ')' || c = '_' || c = '+' || c = '=' || c = '[' ||
  c = ']' || c = Char.ofNat 123 || c = Char.ofNat 125 || c = '|' || c = ';' ||
  c = ':' || c = quoteChar || c = '"' || c = ',' || c = '.' || c = '<' ||
  c = '>' || c = '?' || c = '/' || c = '\\' || c = backquoteChar || c = '~'

/-- The per-tag cleaning pipeline of `_clean_and_validate_tags`
(ai_service.py:644), step by step in source order. -/
def cleanTag (tag : String) : String :=
  -- clean_tag = tag.strip().lower()
  let s := lowerStr (trimStr tag)
  -- remove leading numbers, bullets, quotes, hashes, ...
  let s := ofChars (s.data.dropWhile isLeadingJunk)
  -- remove trailing punctuation, quotes, commas, periods, ...
  let s := ofChars ((s.data.reverse.dropWhile isTrailingJunk).reverse)
  -- remove ALL periods, then all commas
  let s := ofChars (s.data.filter fun c => c ≠ '.')
  let s := ofChars (s.data.filter fun c => c ≠ ',')
  -- remove the special-character class
  let s := ofChars (s.data.filter fun c => ¬ isSpecialJunk c)
  -- keep only characters outside string.punctuation, except '-' and ' '
  let s := ofChars (s.data.filter fun c => ¬ pythonPunctuation.contains c || c = '-' || c = ' ')
  -- compound-word form: drop spaces and hyphens
  let s := ofChars (s.data.filter fun c => c ≠ ' ' ∧ c ≠ '-')
  trimStr s

/-- The stop-word list of `_clean_and_validate_tags`. -/
def tagStopWords : List String :=
  ["youtube", "video", "content", "amazing", "subscribe", "like", "share", "comment",
   "with", "and", "the", "for", "of", "in", "to", "a", "an", "is", "are", "was", "were",
   "be", "been", "being", "have", "has", "had", "do", "does", "did", "will", "would",
   "could", "should", "may", "might", "must", "can", "tag", "tags", "watch", "now"]

/-- Python `str.isdigit()` (ASCII digits, which is all that can survive
the cleaning pipeline). -/
def isDigitStr (s : String) : Bool := ¬ s.data.isEmpty && s.data.all Char.isDigit

/-- The acceptance test of `_clean_and_validate_tags`, applied to a
cleaned tag against the already-accepted tags (the source checks
`len >= 2` twice; one occurrence suffices here). -/
def validTag (cleanedTags : List String) (c : String) : Bool :=
  c ≠ "" && c.data.length ≥ 2 && c.data.length ≤ 50 &&
  ¬ cleanedTags.contains c &&
  ¬ List.isPrefixOf "tag".data c.data &&
  ¬ tagStopWords.contains c &&
  ¬ isDigitStr c

/-- Embeds `AIContentGenerator._clean_and_validate_tags` (ai_service.py:644):
clean each tag, keep it when it passes validation (skipping empty
inputs, as `if not tag: continue` does), cap the result at 15. -/
def cleanAndValidateTags (tags : List String) : List String :=
  (tags.foldl
    (fun cleanedTags tag =>
      if tag = "" then cleanedTags
      else
        let c := cleanTag tag
        if validTag cleanedTags c then cleanedTags ++ [c] else cleanedTags)
    []).take 15

/-! ### Title generation retry loop (`AIContentGenerator._generate_title_and_thumbnail`) -/

/-- One generation attempt, abstracted: the text collaborator together
with the line-oriented parsing either raises (`none`) or yields a parsed
title string (`some title`). -/
abbrev TitleAttempt := Option String

/-- The retry loop of `_generate_title_and_thumbnail` (ai_service.py:323)
over the list of per-attempt outcomes (the source runs
`for attempt in range(3)`, so the workflow calls this with a list of
length 3).  An attempt that raises, or whose title fails the diversity
check, falls through to the next attempt; a diverse title is recorded
and returned; when the attempts are exhausted the deterministic fallback
`f"{video_topic} | {channel_name}"` is recorded and returned.  The
result pairs the returned title with the updated first-word history. -/
def titleAttemptLoop (attempts : List TitleAttempt) (videoTopic channelName : String)
    (hist : List String) : String × List String :=
  match attempts with
  | [] =>
      let fallbackTitle := videoTopic ++ " | " ++ channelName
      (fallbackTitle, trackTitleDiversity hist fallbackTitle)
  | attempt :: rest =>
      match attempt with
      | none => titleAttemptLoop rest videoTopic channelName hist
      | some title =>
          if isTitleDiverse hist title then (title, trackTitleDiversity hist title)
          else titleAttemptLoop rest videoTopic channelName hist

/-- Source: `max_attempts = 3`; the entry point runs exactly three attempts. -/
def generateTitle (attempts : Fin 3 → TitleAttempt) (videoTopic channelName : String)
    (hist : List String) : String × List String :=
  titleAttemptLoop [attempts 0, attempts 1, attempts 2] videoTopic channelName hist

/-! ### Data model (`src/models.py`) -/

/-- The `ContentStatus` enumeration. -/
inductive ContentStatus where
  | pending
  | processing
  | generatingContent
  | generated
  | uploaded
  | published
  | failed
deriving DecidableEq, Repr

/-- The `.value` string of each `ContentStatus` member. -/
def statusValue : ContentStatus → String
  | .pending => "pending"
  | .processing => "processing"
  | .generatingContent => "generating_content"
  | .generated => "generated"
  | .uploaded => "uploaded"
  | .published => "published"
  | .failed => "failed"

/-- Embeds `InputData`: the fields the workflow engine reads.  `video_frame_file`
and `video_frame_url` are omitted: every modelled scenario runs without
a reference frame, so the frame-encoding block of
`_stage_generate_content` is a no-op. -/
structure InputData where
  channelName : Option String
  channelDescription : Option String
  channelId : Option String
  videoTopic : Option String
  additionalContext : Option String
deriving DecidableEq, Repr

/-- Embeds `GeneratedContent`. -/
structure GeneratedContent where
  title : String
  description : String
  tags : List String
  thumbnailName : String
  imagePrompts : List String
deriving DecidableEq, Repr

/-- Embeds `GeneratedImages`: the fields the workflow engine reads. -/
structure GeneratedImages where
  thumbnailUrl : Option String
  midjourneyUrls : List String
  additionalImages : List String
  imageGenerationPrompts : List String
deriving DecidableEq, Repr

/-- Embeds `ContentPackage`.  Log entries are the bare messages (the
`datetime.now().isoformat()` prefix that `add_log` attaches carries no
information any claim depends on); `updated_at` is a rational
wall-clock time in seconds, read only by the cleanup sweep. -/
structure Package where
  id : String
  channelId : String
  inputData : InputData
  generatedContent : Option GeneratedContent
  generatedImages : Option GeneratedImages
  status : ContentStatus
  updatedAt : ℚ
  processingLogs : List String
deriving DecidableEq, Repr

/-- Embeds `ContentPackage.add_log`. -/
def addLog (p : Package) (message : String) : Package :=
  { p with processingLogs := p.processingLogs ++ [message] }

/-- Embeds `ContentPackage.update_status`: set the status and log the change. -/
def updateStatus (p : Package) (newStatus : ContentStatus) : Package :=
  addLog { p with status := newStatus }
    ("Cập nhật trạng thái: " ++ statusValue newStatus)

/-! ### Package initialization (`src/workflow_engine.py`) -/

/-- The random / clock inputs a single workflow run draws from the
environment: the `uuid4().hex[:6]` suffix of a synthesized ad-hoc
channel id, the `pkg_<timestamp>_<hex4>` package id, and the creation
time. -/
structure Env where
  uuidHex6 : String
  packageId : String
  now : ℚ
deriving DecidableEq, Repr

/-- Embeds `slugify` (python-slugify) restricted to ASCII input: lowercase,
split on non-alphanumeric characters, join the fragments with `-`. -/
def slugify (s : String) : String :=
  let fragments := (wordsAux ((lowerStr s).data.map fun c => if c.isAlphanum then c else ' ') []).map ofChars
  match fragments with
  | [] => ""
  | f :: fs => fs.foldl (fun acc w => acc ++ "-" ++ w) f

/-- The channel id `_initialize_package` (workflow_engine.py:82) leaves
on the package: when the input carries no (truthy) `channel_id` but a
truthy `channel_name`, a fresh `ad-hoc-<slug>-<hex6>` id is synthesized
(with `channel_name or "unknown-channel"` feeding the slug); otherwise
the input's id is kept.  An input with neither id nor name would fail
pydantic validation of `ContentPackage.channel_id`; no modelled
scenario reaches that case, and it is mapped to `""`. -/
def resolveChannelId (env : Env) (input : InputData) : String :=
  if ¬ pyTruthy input.channelId ∧ pyTruthy input.channelName then
    let nameForSlug := match input.channelName with
      | some n => if n = "" then "unknown-channel" else n
      | none => "unknown-channel"
    "ad-hoc-" ++ (slugify nameForSlug ++ ("-" ++ env.uuidHex6))
  else (input.channelId).getD ""

/-- Embeds `WorkflowEngine._initialize_package` (workflow_engine.py:82): build
the PENDING package (no log entry is added here) and register it. -/
def initializePackage (env : Env) (input : InputData) : Package :=
  { id := env.packageId
    channelId := resolveChannelId env input
    inputData := { input with channelId := some (resolveChannelId env input) }
    generatedContent := none
    generatedImages := none
    status := .pending
    updatedAt := env.now
    processingLogs := [] }

/-- The package-creation prefix of `run_full_workflow`
(workflow_engine.py:128-130) for an ad-hoc input (truthy
`channel_name` and `channel_description`): initialize the package and
log the ad-hoc start line. -/
def createPackageAdHoc (env : Env) (input : InputData) : Package :=
  addLog (initializePackage env input) "Bắt đầu workflow cho kênh ad-hoc."

/-! ### Workflow stages (`src/workflow_engine.py`)

A stage that can raise is modelled as `Except (String × Package) Package`:
the error case carries the exception message together with the package as
mutated up to the raise (the registry keeps the same object the stage
mutated in place). -/

/-- Outcome of the `ai_generator.generate_parallel_content` collaborator
call: either the generated content together with the improved image
prompts, or the raised exception's message. -/
abbrev ContentOutcome := Except String (GeneratedContent × List String)

/-- Outcome of the `image_generator.generate_multiple_images`
collaborator call. -/
abbrev ImagesOutcome := Except String GeneratedImages

/-- Embeds `WorkflowEngine._stage_generate_content` (workflow_engine.py:173)
run on a package whose channel id is not in the channel registry (every
ad-hoc id, being freshly synthesized with a random suffix, is such), so
`channel_manager.get_channel` returns `None` and the enhanced-context
block is skipped, and whose input carries no `video_frame_file`, so the
frame-encoding block is skipped. -/
def stageGenerateContent (contentRes : ContentOutcome) (p : Package) :
    Except (String × Package) Package :=
  let p := addLog p "Bắt đầu tạo nội dung với OpenAI"
  match contentRes with
  | .ok (content, improvedPrompts) =>
      let content := { content with imagePrompts := improvedPrompts }
      let p := { p with generatedContent := some content }
      .ok (addLog p ("Đã tạo nội dung: " ++ ofChars (content.title.data.take 50) ++ "..."))
  | .error e => .error (e, addLog p ("Lỗi tạo nội dung: " ++ e))

/-- Embeds `WorkflowEngine._stage_generate_images` (workflow_engine.py:231).
The missing-prompts `ValueError` is raised inside the stage's own `try`,
so it too lands in the stage's `except` block before propagating. -/
def stageGenerateImages (imageRes : ImagesOutcome) (p : Package) :
    Except (String × Package) Package :=
  let p := addLog p "Bắt đầu tạo hình ảnh với AI"
  if p.generatedContent = none ∨ (p.generatedContent.map GeneratedContent.imagePrompts).getD [] = [] then
    let e := "Không có prompts để tạo ảnh"
    .error (e, addLog p ("Lỗi tạo hình ảnh: " ++ e))
  else
    match imageRes with
    | .ok imgs =>
        let p := { p with generatedImages := some imgs }
        .ok (addLog p ("Đã tạo " ++ toString imgs.additionalImages.length ++ " ảnh và 1 thumbnail"))
    | .error e => .error (e, addLog p ("Lỗi tạo hình ảnh: " ++ e))

/-- Embeds `WorkflowEngine._stage_save_to_database` (workflow_engine.py:264).
`DatabaseManager.save_content_package` catches every exception
internally and returns a boolean, so the stage's own `except` branch is
unreachable and the stage never raises. -/
def stageSaveToDatabase (saveOk : Bool) (p : Package) : Package :=
  let p := addLog p "Bắt đầu lưu dữ liệu vào Google Sheets"
  if saveOk then addLog p "✅ Đã lưu thành công vào Google Sheets"
  else addLog p "⚠️ Không thể lưu vào Google Sheets (có thể chưa cấu hình)"

/-- The outer `except` handler of `run_full_workflow`
(workflow_engine.py:164): mark the package FAILED, log the error, and
re-raise. -/
def workflowFail (p : Package) (e : String) : Except (String × Package) Package :=
  let msg := "Lỗi nghiêm trọng trong workflow: " ++ e
  .error (msg, addLog { p with status := .failed } ("Lỗi: " ++ msg))

/-- Embeds `WorkflowEngine.run_full_workflow` (workflow_engine.py:118), with the
collaborator outcomes passed in and both `auto_generate_content` and
`auto_generate_images` at their `WorkflowConfig` defaults (`True`).
The ad-hoc guard is the source's `if input_data.channel_name and
input_data.channel_description:`.  In the managed-channel branch the
channel registry is modelled as holding no entry for the input's id
(no claim exercises a registered channel), so `enrich_input_data`
passes the input through unchanged and `_stage_prepare_data` raises the
missing-config error, which the outer handler turns into a FAILED
package and re-raises. -/
def runFullWorkflow (env : Env) (input : InputData) (contentRes : ContentOutcome)
    (imageRes : ImagesOutcome) (saveOk : Bool) : Except (String × Package) Package :=
  if pyTruthy input.channelName && pyTruthy input.channelDescription then
    let p := createPackageAdHoc env input
    -- stage 1: _stage_prepare_data (workflow_engine.py:390), ad-hoc branch
    let p := addLog p "Bắt đầu chuẩn bị dữ liệu"
    let p := addLog p ("Sử dụng thông tin kênh ad-hoc: " ++ (input.channelName).getD "")
    let p := updateStatus p .generatingContent
    -- stage 2: content (a raise here escapes to the outer handler)
    match stageGenerateContent contentRes p with
    | .error (e, pFailed) => workflowFail pFailed e
    | .ok p =>
        -- stage 3: images, wrapped in its own try/except: a raise is
        -- logged and swallowed, the workflow continues without images
        let p := match stageGenerateImages imageRes p with
          | .ok p => p
          | .error (e, p) => addLog p ("⚠️ Bỏ qua tạo ảnh: " ++ e)
        -- stage 4: persistence (never raises)
        let p := stageSaveToDatabase saveOk p
        -- completion: direct status assignment (no status-change log), then log
        let p := addLog { p with status := .generated } "Hoàn thành workflow tạo nội dung"
        .ok p
  else
    let p := initializePackage env input
    let p := addLog p ("Bắt đầu workflow cho kênh quản lý: " ++ p.channelId)
    let p := addLog p "Bắt đầu chuẩn bị dữ liệu"
    workflowFail p ("Không tìm thấy cấu hình cho kênh ID: " ++ p.channelId)

/-! ### Per-channel statistics (`WorkflowEngine.get_channel_statistics`) -/

/-- The numeric counters of one channel's statistics dict (the dict also
stores the non-numeric `channel_name`, which no claim reads). -/
structure ChannelStats where
  total : Nat
  pending : Nat
  processing : Nat
  generated : Nat
  uploaded : Nat
  published : Nat
  failed : Nat
deriving DecidableEq, Repr

def emptyStats : ChannelStats := ⟨0, 0, 0, 0, 0, 0, 0⟩

/-- Source: `if status_key in stats[channel_id]: stats[channel_id][status_key] += 1`:
increment the counter whose dict key equals the status string, and do
nothing when the string is not a key of the dict (as happens for
`"generating_content"`). -/
def bumpStatusKey (m : ChannelStats) (key : String) : ChannelStats :=
  if key = "pending" then { m with pending := m.pending + 1 }
  else if key = "processing" then { m with processing := m.processing + 1 }
  else if key = "generated" then { m with generated := m.generated + 1 }
  else if key = "uploaded" then { m with uploaded := m.uploaded + 1 }
  else if key = "published" then { m with published := m.published + 1 }
  else if key = "failed" then { m with failed := m.failed + 1 }
  else m

/-- One iteration of the `get_channel_statistics` loop for a package of
the channel under consideration: `stats[channel_id]["total"] += 1`
unconditionally, then the guarded per-status increment. -/
def statsStep (m : ChannelStats) (p : Package) : ChannelStats :=
  bumpStatusKey { m with total := m.total + 1 } (statusValue p.status)

/-- Embeds `WorkflowEngine.get_channel_statistics` (workflow_engine.py:337),
projected to one channel: the loop touches a channel's entry exactly at
the packages whose `channel_id` matches it. -/
def channelStatistics (pkgs : List Package) (channelId : String) : ChannelStats :=
  (pkgs.filter fun p => p.channelId == channelId).foldl statsStep emptyStats

/-- Sum of the six per-status counters listed in the statistics dict. -/
def sumStatusCounters (m : ChannelStats) : Nat :=
  m.pending + m.processing + m.generated + m.uploaded + m.published + m.failed

/-! ### Cleanup sweep (`WorkflowEngine.cleanup_completed_packages`) -/

/-- Source: `package.status in [ContentStatus.GENERATED, ContentStatus.PUBLISHED,
ContentStatus.FAILED]`. -/
def isTerminal (s : ContentStatus) : Bool :=
  s == .generated || s == .published || s == .failed

/-- The removal test of `cleanup_completed_packages`
(workflow_engine.py:367): terminal status and
`(now - package.updated_at).total_seconds() > max_age_hours * 3600`. -/
def shouldSweep (now : ℚ) (maxAgeHours : ℤ) (p : Package) : Bool :=
  isTerminal p.status && decide (now - p.updatedAt > (maxAgeHours : ℚ) * 3600)

/-- Embeds `WorkflowEngine.cleanup_completed_packages`: collect the package ids
passing the removal test, then delete them from the registry — i.e. the
registry keeps exactly the packages failing the test. -/
def cleanupCompletedPackages (now : ℚ) (maxAgeHours : ℤ) (pkgs : List Package) :
    List Package :=
  pkgs.filter fun p => ¬ shouldSweep now maxAgeHours p

/-! ### Database fan-out (`DatabaseManager.save_content_package`) -/

/-- One sink attempt: `_save_to_google_sheets` / `_save_to_airtable`
each wrap their whole body in `try/except` and return a boolean, so an
attempt never raises; its outcome is the boolean.  The returned trace
records that the sink was called. -/
def callSink (name : String) (outcome : Bool) (trace : List String) : Bool × List String :=
  (outcome, trace ++ [name])

/-- Embeds `DatabaseManager.save_content_package` (database_service.py:495):
call the Google-Sheets sink, then the Airtable sink (unconditionally —
there is no early return between the two calls), and succeed iff at
least one call succeeded.  Returns the overall result together with the
trace of attempted sinks. -/
def saveContentPackage (googleOutcome airtableOutcome : Bool) : Bool × List String :=
  let googleCall := callSink "google_sheets" googleOutcome []
  let airtableCall := callSink "airtable" airtableOutcome googleCall.2
  (googleCall.1 || airtableCall.1, airtableCall.2)

/-! ## Theorems -/

/-- C9: The tag cleaning/validation step is idempotent on already-clean
input: applying `_clean_and_validate_tags` twice to `["relax", "piano"]`
yields the identical list as applying it once. -/
theorem cleanAndValidateTags_idempotent_on_clean :
    cleanAndValidateTags (cleanAndValidateTags ["relax", "piano"])
      = cleanAndValidateTags ["relax", "piano"] := by decide

/-- C8: `save_content_package` attempts the Google-Sheets sink and the
Airtable sink independently — both sinks appear in the attempt trace for
every combination of outcomes, so neither sink's failure prevents the
attempt on the other — and returns `true` iff at least one of the two
succeeded. -/
theorem saveContentPackage_independent_sinks :
    ∀ googleOutcome airtableOutcome : Bool,
      (saveContentPackage googleOutcome airtableOutcome).2
          = ["google_sheets", "airtable"] ∧
      ((saveContentPackage googleOutcome airtableOutcome).1 = true ↔
        googleOutcome = true ∨ airtableOutcome = true) := by decide

/-- C4: The cleanup sweep retains exactly the packages that are not
(terminal and strictly older than `max_age_hours`): a package is removed
iff its status is GENERATED, PUBLISHED or FAILED and
`now - updated_at > max_age_hours * 3600` strictly.  In particular a
terminal package aged exactly `max_age_hours` is retained, one older by
any positive amount is removed, and a non-terminal package is never
removed regardless of age. -/
theorem cleanupCompletedPackages_mem_iff (now : ℚ) (maxAgeHours : ℤ)
    (pkgs : List Package) (p : Package) :
    p ∈ cleanupCompletedPackages now maxAgeHours pkgs ↔
      p ∈ pkgs ∧
        ¬((p.status = .generated ∨ p.status = .published ∨ p.status = .failed) ∧
          now - p.updatedAt > (maxAgeHours : ℚ) * 3600) := by
  simp only [cleanupCompletedPackages, List.mem_filter, decide_eq_true_eq, shouldSweep,
    isTerminal, Bool.and_eq_true, Bool.or_eq_true, beq_iff_eq]
  tauto

/-- C7: Creating a package for an ad-hoc input carrying
`channel_name="Test"`, `channel_description="Desc"`,
`video_topic="yoga"` and no `channel_id` (the package-creation step of
`run_full_workflow`, lines 128-130, via `_initialize_package`) yields a
package with status PENDING, a synthesized channel id prefixed
`ad-hoc-`, and exactly one log entry, for every draw of the random
suffix / package id / clock. -/
theorem createPackageAdHoc_pending_adhoc_oneLog (env : Env) :
    (createPackageAdHoc env
        ⟨some "Test", some "Desc", none, some "yoga", none⟩).status = .pending ∧
    (∃ suffix, (createPackageAdHoc env
        ⟨some "Test", some "Desc", none, some "yoga", none⟩).channelId
          = "ad-hoc-" ++ suffix) ∧
    (createPackageAdHoc env
        ⟨some "Test", some "Desc", none, some "yoga", none⟩).processingLogs.length = 1 :=
  ⟨rfl, ⟨slugify "Test" ++ ("-" ++ env.uuidHex6), rfl⟩, rfl⟩

/-- A title with a non-empty first word is itself non-empty. -/
theorem title_ne_empty_of_firstWord {title : String} (h : firstWordLower title ≠ "") :
    title ≠ "" := by
  intro e
  exact h (by subst e; rfl)

/-- C2: For a title with a (lowercase) first word, `_is_title_diverse`
returns `false` whenever that word already occurs at least 2 times in
the tracker's current first-word history; equivalently, the title is
diverse iff the word's occurrence count is strictly less than
`max(1, 20 // 10) = 2`. -/
theorem isTitleDiverse_iff_count (hist : List String) (title : String)
    (h : firstWordLower title ≠ "") :
    (hist.count (firstWordLower title) ≥ 2 → isTitleDiverse hist title = false) ∧
    (isTitleDiverse hist title = true ↔
      hist.count (firstWordLower title) < max 1 (maxDiversityHistory / 10)) := by
  have htitle : title ≠ "" := title_ne_empty_of_firstWord h
  by_cases hhist : hist = []
  · subst hhist
    simp [isTitleDiverse, maxDiversityHistory]
  · simp only [isTitleDiverse, htitle, hhist, or_self, if_false, h, decide_eq_true_eq,
      maxDiversityHistory]
    refine ⟨fun hge => ?_, trivial⟩
    simp only [decide_eq_false_iff_not, not_lt]
    omega

/-- Witness for C2: the word "hello" occurs twice in the history, so
"Hello there" is rejected. -/
theorem isTitleDiverse_iff_count_witness :
    firstWordLower "Hello there" ≠ "" ∧
    ((["hello", "hello"].count (firstWordLower "Hello there") ≥ 2 →
        isTitleDiverse ["hello", "hello"] "Hello there" = false) ∧
      (isTitleDiverse ["hello", "hello"] "Hello there" = true ↔
        ["hello", "hello"].count (firstWordLower "Hello there")
          < max 1 (maxDiversityHistory / 10))) :=
  ⟨by decide, isTitleDiverse_iff_count ["hello", "hello"] "Hello there" (by decide)⟩

/-- C3: Exact tag repeats have zero tolerance: whenever some tag of the
candidate set, normalized (`tag.lower().strip()`, non-empty), already
appears in the aggregated full-tag history, and the tracker has a
non-empty pattern history, `_is_tags_diverse` returns `false`. -/
theorem isTagsDiverse_false_of_exact_dup (h : TagHistory) (tags : List String)
    (t : String) (hmem : t ∈ tags)
    (hnorm : trimStr (lowerStr t) ≠ "")
    (hdup : trimStr (lowerStr t) ∈ h.fullTags.flatten)
    (hp : h.patterns ≠ []) :
    isTagsDiverse h tags = false := by
  have htags : tags ≠ [] := List.ne_nil_of_mem hmem
  have ht : t ≠ "" := by
    intro e
    exact hnorm (by subst e; rfl)
  have hcur : trimStr (lowerStr t) ∈ fullTagsOf tags := by
    simp only [fullTagsOf, List.mem_filterMap]
    exact ⟨t, hmem, by simp [ht, hnorm]⟩
  simp only [isTagsDiverse, htags, hp, or_self, if_false]
  have hne : ¬(tagPatternsOf tags = [] ∧ fullTagsOf tags = []) := by
    rintro ⟨-, hfull⟩
    rw [hfull] at hcur
    exact List.not_mem_nil _ hcur
  rw [if_neg hne]
  have hdupcount :
      0 < ((fullTagsOf tags).filter
        fun f => decide (h.fullTags.flatten.count f ≥ 1)).length := by
    rw [List.length_pos_iff_exists_mem]
    refine ⟨trimStr (lowerStr t), List.mem_filter.mpr ⟨hcur, ?_⟩⟩
    simp only [ge_iff_le, decide_eq_true_eq]
    exact List.count_pos_iff.mpr hdup
  have : decide (((fullTagsOf tags).filter
      fun f => decide (h.fullTags.flatten.count f ≥ 1)).length ≤ 0) = false := by
    simp only [decide_eq_false_iff_not, not_le]
    exact hdupcount
  rw [this, Bool.and_false]

/-- Witness for C3: after recording the tag set `["music", "piano"]`,
the candidate `["music", "newthing"]` is rejected because "music"
exactly repeats. -/
theorem isTagsDiverse_false_of_exact_dup_witness :
    ("music" ∈ ["music", "newthing"]) ∧
    trimStr (lowerStr "music") ≠ "" ∧
    (trimStr (lowerStr "music")
      ∈ (trackTagDiversity ⟨[], []⟩ ["music", "piano"]).fullTags.flatten) ∧
    (trackTagDiversity ⟨[], []⟩ ["music", "piano"]).patterns ≠ [] ∧
    isTagsDiverse (trackTagDiversity ⟨[], []⟩ ["music", "piano"]) ["music", "newthing"]
      = false :=
  ⟨by decide, by decide, by decide, by decide,
    isTagsDiverse_false_of_exact_dup _ _ "music" (by decide) (by decide) (by decide)
      (by decide)⟩

/-- C6: When every one of the 3 title-generation attempts raises or
yields a non-diverse title, the orchestrator returns the deterministic
fallback `f"{video_topic} | {channel_name}"` and records it into the
first-word diversity history. -/
theorem generateTitle_fallback (attempts : Fin 3 → TitleAttempt)
    (videoTopic channelName : String) (hist : List String)
    (h : ∀ i t, attempts i = some t → isTitleDiverse hist t = false) :
    generateTitle attempts videoTopic channelName hist
      = (videoTopic ++ " | " ++ channelName,
         trackTitleDiversity hist (videoTopic ++ " | " ++ channelName)) := by
  have h0 := h 0
  have h1 := h 1
  have h2 := h 2
  unfold generateTitle
  cases ha0 : attempts 0 with
  | none =>
      cases ha1 : attempts 1 with
      | none =>
          cases ha2 : attempts 2 with
          | none => rfl
          | some t2 => simp [titleAttemptLoop, h2 t2 ha2]
      | some t1 =>
          cases ha2 : attempts 2 with
          | none => simp [titleAttemptLoop, h1 t1 ha1]
          | some t2 => simp [titleAttemptLoop, h1 t1 ha1, h2 t2 ha2]
  | some t0 =>
      cases ha1 : attempts 1 with
      | none =>
          cases ha2 : attempts 2 with
          | none => simp [titleAttemptLoop, h0 t0 ha0]
          | some t2 => simp [titleAttemptLoop, h0 t0 ha0, h2 t2 ha2]
      | some t1 =>
          cases ha2 : attempts 2 with
          | none => simp [titleAttemptLoop, h0 t0 ha0, h1 t1 ha1]
          | some t2 => simp [titleAttemptLoop, h0 t0 ha0, h1 t1 ha1, h2 t2 ha2]

/-- Witness for C6: three forced generation failures with
topic="sunset timelapse" and channel_name="Calm Channel" return exactly
"sunset timelapse | Calm Channel". -/
theorem generateTitle_fallback_witness :
    (∀ (i : Fin 3) (t : String), (fun _ => (none : TitleAttempt)) i = some t →
      isTitleDiverse [] t = false) ∧
    generateTitle (fun _ => none) "sunset timelapse" "Calm Channel" []
      = ("sunset timelapse | Calm Channel",
         trackTitleDiversity [] ("sunset timelapse | Calm Channel")) ∧
    trackTitleDiversity [] ("sunset timelapse | Calm Channel") = ["sunset"] :=
  ⟨fun _ t hc => by simp at hc,
    generateTitle_fallback (fun _ => none) "sunset timelapse" "Calm Channel" []
      (fun _ t hc => by simp at hc),
    by decide⟩

/-- The last `n` elements of a list. -/
def lastN (n : Nat) (l : List α) : List α := l.drop (l.length - n)

theorem lastN_of_le {n : Nat} {l : List α} (h : l.length ≤ n) : lastN n l = l := by
  unfold lastN
  rw [Nat.sub_eq_zero_of_le h, List.drop_zero]

/-- Taking the last `n` of a prefix already cut to its last `n` elements
commutes with appending. -/
theorem lastN_lastN_append (n : Nat) (a b : List α) :
    lastN n (lastN n a ++ b) = lastN n (a ++ b) := by
  unfold lastN
  rw [List.length_append, List.length_append, List.length_drop,
    List.drop_append_eq_append_drop, List.drop_append_eq_append_drop,
    List.drop_drop, List.length_drop]
  have h1 : a.length - n + (a.length - (a.length - n) + b.length - n)
      = a.length + b.length - n := by omega
  have h2 : a.length - (a.length - n) + b.length - n - (a.length - (a.length - n))
      = a.length + b.length - n - a.length := by omega
  rw [h1, h2]

/-- One `_track_title_diversity` step keeps exactly the last 20 of the
history extended by the new first word (for a title with a first word,
starting from a history within the cap). -/
theorem trackTitleDiversity_eq_lastN (hist : List String) (t : String)
    (hfw : firstWordLower t ≠ "") (hlen : hist.length ≤ maxDiversityHistory) :
    trackTitleDiversity hist t
      = lastN maxDiversityHistory (hist ++ [firstWordLower t]) := by
  have ht : t ≠ "" := title_ne_empty_of_firstWord hfw
  simp only [trackTitleDiversity, ht, if_false, hfw]
  by_cases hfull : (hist ++ [firstWordLower t]).length > maxDiversityHistory
  · rw [if_pos hfull]
    unfold lastN
    congr 1
    simp only [List.length_append, List.length_singleton] at hfull ⊢
    omega
  · rw [if_neg hfull, lastN_of_le (by omega)]

/-- One `_track_title_diversity` step never grows the history past the
20-item cap. -/
theorem trackTitleDiversity_length_le (hist : List String) (t : String)
    (hlen : hist.length ≤ maxDiversityHistory) :
    (trackTitleDiversity hist t).length ≤ maxDiversityHistory := by
  simp only [trackTitleDiversity]
  split
  · exact hlen
  · split
    · exact hlen
    · split
      · next hgt =>
          simp only [List.length_drop, List.length_append, List.length_singleton] at *
          omega
      · next hle =>
          omega

/-- Folding `_track_title_diversity` over a list of titles with
first words keeps exactly the last 20 recorded first words. -/
theorem foldl_trackTitleDiversity_eq_lastN (titles : List String) (hist : List String)
    (hws : ∀ t ∈ titles, firstWordLower t ≠ "")
    (hlen : hist.length ≤ maxDiversityHistory) :
    titles.foldl trackTitleDiversity hist
      = lastN maxDiversityHistory (hist ++ titles.map firstWordLower) := by
  induction titles generalizing hist with
  | nil => simp [lastN_of_le hlen]
  | cons t ts ih =>
      simp only [List.foldl_cons, List.map_cons]
      rw [ih (trackTitleDiversity hist t)
            (fun u hu => hws u (List.mem_cons_of_mem _ hu))
            (trackTitleDiversity_length_le hist t hlen),
          trackTitleDiversity_eq_lastN hist t (hws t (List.mem_cons_self _ _)) hlen,
          lastN_lastN_append]
      rw [List.append_assoc]
      rfl

/-- C5: The title-history is a bounded FIFO.  (1) After recording 25
titles (each with a first word) from an empty tracker, the retained
history has length exactly 20 and is exactly the first words of the 20
most recently recorded titles, in recording order.  (2) From any state
within the 20-item cap, no sequence of record operations pushes the
history past the cap. -/
theorem boundedTitleHistory :
    (∀ titles : List String, titles.length = 25 →
      (∀ t ∈ titles, firstWordLower t ≠ "") →
      (titles.foldl trackTitleDiversity []).length = 20 ∧
      titles.foldl trackTitleDiversity [] = (titles.drop 5).map firstWordLower) ∧
    (∀ (hist titles : List String), hist.length ≤ 20 →
      (titles.foldl trackTitleDiversity hist).length ≤ 20) := by
  constructor
  · intro titles hlen hws
    have h := foldl_trackTitleDiversity_eq_lastN titles [] hws (by simp [maxDiversityHistory])
    rw [List.nil_append] at h
    have hmap : (titles.map firstWordLower).length = 25 := by rw [List.length_map, hlen]
    have hdrop : lastN maxDiversityHistory (titles.map firstWordLower)
        = (titles.drop 5).map firstWordLower := by
      unfold lastN
      rw [hmap, List.map_drop]
      rfl
    refine ⟨?_, by rw [h, hdrop]⟩
    rw [h, hdrop, List.length_map, List.length_drop, hlen]
  · intro hist titles hlen
    induction titles generalizing hist with
    | nil => exact hlen
    | cons t ts ih =>
        exact ih (trackTitleDiversity hist t) (trackTitleDiversity_length_le hist t hlen)

/-- Witness for C5: 25 concrete titles sharing a first word leave a
history of length exactly 20, and a full 20-item history stays at 20. -/
theorem boundedTitleHistory_witness :
    ((List.replicate 25 "Calm ocean waves").length = 25 ∧
      (∀ t ∈ List.replicate 25 "Calm ocean waves", firstWordLower t ≠ "") ∧
      ((List.replicate 25 "Calm ocean waves").foldl trackTitleDiversity []).length = 20) ∧
    ((List.replicate 20 "calm").length ≤ 20 ∧
      ((List.replicate 25 "Calm ocean waves").foldl trackTitleDiversity
        (List.replicate 20 "calm")).length ≤ 20) :=
  ⟨⟨by decide, by decide,
      (boundedTitleHistory.1 (List.replicate 25 "Calm ocean waves") (by decide)
        (by decide)).1⟩,
    ⟨by decide,
      boundedTitleHistory.2 (List.replicate 20 "calm")
        (List.replicate 25 "Calm ocean waves") (by decide)⟩⟩

/-- One statistics step always increments `total` by exactly one. -/
theorem statsStep_total (m : ChannelStats) (p : Package) :
    (statsStep m p).total = m.total + 1 := by
  rcases p with ⟨_, _, _, _, _, st, _, _⟩
  cases st <;> rfl

/-- One statistics step increments the six listed status counters by one
in total, except for a package in status GENERATING_CONTENT, whose
status string is not a key of the statistics dict. -/
theorem statsStep_sum (m : ChannelStats) (p : Package) :
    sumStatusCounters (statsStep m p)
      = sumStatusCounters m + (if p.status = .generatingContent then 0 else 1) := by
  rcases p with ⟨_, _, _, _, _, st, _, _⟩
  cases st <;> simp [statsStep, bumpStatusKey, statusValue, sumStatusCounters] <;> omega

/-- Folding the statistics step: `total` counts every package, and the
six status counters together count the packages not in
GENERATING_CONTENT. -/
theorem foldl_statsStep (l : List Package) (m : ChannelStats) :
    (l.foldl statsStep m).total = m.total + l.length ∧
    sumStatusCounters (l.foldl statsStep m)
        + l.countP (fun p => p.status == ContentStatus.generatingContent)
      = sumStatusCounters m + l.length := by
  induction l generalizing m with
  | nil => simp
  | cons p ps ih =>
      obtain ⟨ihT, ihS⟩ := ih (statsStep m p)
      simp only [List.foldl_cons, List.countP_cons, List.length_cons]
      constructor
      · rw [ihT, statsStep_total]
        omega
      · rw [statsStep_sum] at ihS
        by_cases hgc : p.status = ContentStatus.generatingContent <;>
          simp only [hgc, beq_iff_eq, if_true, if_false, beq_self_eq_true] <;>
          simp only [hgc, if_true, if_false] at ihS <;>
          omega

/-- C10: In `get_channel_statistics`, every channel's `total` is at
least the sum of its six listed status counters, and strictly greater
whenever some package of that channel is in status GENERATING_CONTENT
(whose status string is not a key of the per-channel dict). -/
theorem channelStatistics_total_ge_sum (pkgs : List Package) (channelId : String) :
    sumStatusCounters (channelStatistics pkgs channelId)
        ≤ (channelStatistics pkgs channelId).total ∧
    ((∃ p ∈ pkgs, p.channelId = channelId ∧ p.status = .generatingContent) →
      sumStatusCounters (channelStatistics pkgs channelId)
        < (channelStatistics pkgs channelId).total) := by
  unfold channelStatistics
  obtain ⟨hT, hS⟩ := foldl_statsStep (pkgs.filter fun p => p.channelId == channelId)
    emptyStats
  have hempty : sumStatusCounters emptyStats = 0 := rfl
  have hemptyT : emptyStats.total = 0 := rfl
  rw [hempty] at hS
  rw [hemptyT] at hT
  constructor
  · omega
  · rintro ⟨p, hp, hch, hgc⟩
    have hmemf : p ∈ pkgs.filter fun q => q.channelId == channelId :=
      List.mem_filter.mpr ⟨hp, by simp [hch]⟩
    have hcount : 0 < (pkgs.filter fun q => q.channelId == channelId).countP
        (fun q => q.status == ContentStatus.generatingContent) := by
      rw [List.countP_pos_iff]
      exact ⟨p, hmemf, by simp [hgc]⟩
    omega

/-- Witness for C10: one GENERATING_CONTENT package makes the channel's
`total` strictly exceed the sum of its status counters. -/
theorem channelStatistics_total_ge_sum_witness :
    (∃ p ∈ [(⟨"pkg_1", "ch1", ⟨none, none, some "ch1", none, none⟩, none, none,
        ContentStatus.generatingContent, 0, []⟩ : Package)],
      p.channelId = "ch1" ∧ p.status = .generatingContent) ∧
    sumStatusCounters (channelStatistics
        [⟨"pkg_1", "ch1", ⟨none, none, some "ch1", none, none⟩, none, none,
          ContentStatus.generatingContent, 0, []⟩] "ch1")
      < (channelStatistics
        [⟨"pkg_1", "ch1", ⟨none, none, some "ch1", none, none⟩, none, none,
          ContentStatus.generatingContent, 0, []⟩] "ch1").total :=
  ⟨⟨_, List.mem_singleton.mpr rfl, rfl, rfl⟩,
    (channelStatistics_total_ge_sum _ "ch1").2
      ⟨_, List.mem_singleton.mpr rfl, rfl, rfl⟩⟩

/-- Appending the empty string on the right is the identity. -/
theorem str_append_empty (s : String) : s ++ "" = s := by
  apply congrArg String.mk
  exact List.append_nil s.data

/-- C1: Running the full workflow on an ad-hoc input with the content
stage succeeding and the image-generation stage raising (with any error
text `e`) on its one call, the workflow returns a package whose status
is GENERATED, whose `generated_images` is `None`, and whose log contains
an entry with the image-stage error text; the image-stage error never
reaches the package status. -/
theorem runFullWorkflow_imageFailure_isolated (env : Env) (input : InputData)
    (content : GeneratedContent) (improvedPrompts : List String) (e : String)
    (saveOk : Bool)
    (hname : pyTruthy input.channelName = true)
    (hdesc : pyTruthy input.channelDescription = true)
    (hprompts : improvedPrompts ≠ []) :
    ∃ p : Package,
      runFullWorkflow env input (.ok (content, improvedPrompts)) (.error e) saveOk
        = .ok p ∧
      p.status = .generated ∧
      p.generatedImages = none ∧
      ∃ l ∈ p.processingLogs, ∃ pre post, l = pre ++ e ++ post := by
  simp only [runFullWorkflow, hname, hdesc, Bool.and_self, if_true,
    stageGenerateContent, stageGenerateImages, stageSaveToDatabase, createPackageAdHoc,
    initializePackage, updateStatus, addLog, workflowFail]
  simp only [Option.map_some', Option.getD_some, hprompts, or_false, false_or,
    reduceCtorEq, if_false]
  refine ⟨_, rfl, ?_, ?_, ?_⟩
  · cases saveOk <;> rfl
  · cases saveOk <;> rfl
  · refine ⟨"⚠️ Bỏ qua tạo ảnh: " ++ e, ?_, "⚠️ Bỏ qua tạo ảnh: ", "", ?_⟩
    · cases saveOk <;> simp
    · rw [str_append_empty]

/-- Witness for C1: a concrete ad-hoc run whose image stage always
raises "image service down" still ends GENERATED without images. -/
theorem runFullWorkflow_imageFailure_isolated_witness :
    (pyTruthy (some "Test") = true ∧ pyTruthy (some "Desc") = true ∧
      (["prompt one"] : List String) ≠ []) ∧
    ∃ p : Package,
      runFullWorkflow ⟨"a1b2c3", "pkg_20240101000000_ab12", 0⟩
          ⟨some "Test", some "Desc", none, some "yoga", none⟩
          (.ok (⟨"Yoga Flow", "desc", ["yoga"], "THUMB", []⟩, ["prompt one"]))
          (.error "image service down") true
        = .ok p ∧
      p.status = .generated ∧
      p.generatedImages = none ∧
      ∃ l ∈ p.processingLogs, ∃ pre post, l = pre ++ "image service down" ++ post :=
  ⟨⟨by decide, by decide, by decide⟩,
    runFullWorkflow_imageFailure_isolated ⟨"a1b2c3", "pkg_20240101000000_ab12", 0⟩
      ⟨some "Test", some "Desc", none, some "yoga", none⟩
      ⟨"Yoga Flow", "desc", ["yoga"], "THUMB", []⟩ ["prompt one"]
      "image service down" true (by decide) (by decide) (by decide)⟩

end AutoContent
